import Mathlib

/-!
Shallow embedding of the Messenger chatbot core (src/lib/messenger.ts):
the MessengerClient validation and template preparation logic, and the
Chatbot flow-graph / session / rate-limit / message-handling logic.

Conventions of the embedding:
- JavaScript strings that are inspected character-wise (truncation with
  substring, case-insensitive comparison with toLowerCase) are modelled
  as lists of characters (JStr); strings used only as opaque keys
  (node ids, button ids, edge endpoints, sender ids, type tags, URLs)
  are modelled as Lean String.
- Timestamps (Date.now, Date.getTime) are integers in milliseconds.
- JavaScript fields that may be absent are Option; where the code tests
  a string for truthiness (empty string is falsy) a helper makes the
  check explicit.
- Code that can raise a runtime exception is modelled with an Option
  result, none standing for the raised exception.
- Outbound network activity is modelled as a list of Effect values in
  the order the code awaits them.
-/

namespace Messenger

/-- A JavaScript string viewed as a sequence of characters. -/
abbrev JStr := List Char

/-- JavaScript truthiness for an optional string field: an absent field
and the empty string are both falsy. -/
def truthyS : Option String → Option String
  | some "" => none
  | o => o

/-- JavaScript truthiness for an optional character-list field. -/
def truthyJ : Option JStr → Option JStr
  | some [] => none
  | o => o

/-- The toLowerCase comparison key of a string. -/
def lowerJ (s : JStr) : JStr := s.map Char.toLower

/-! ## MessengerClient data (src/lib/messenger.ts, MessengerTemplate and friends) -/

/-- A button inside an outbound template: the source builds objects with
a type tag, a title, and either a postback payload or a web url. -/
structure MButton where
  btype : String
  title : JStr
  payload : Option String
  url : Option String
deriving DecidableEq, Repr

/-- An element (card) of a generic template. The default action is the
pair of its type tag and url when present. -/
structure MElement where
  title : JStr
  subtitle : Option JStr
  default_action : Option (String × String)
  buttons : Option (List MButton)
deriving DecidableEq, Repr

/-- The template descriptors actually constructed by the chatbot
(createTemplateFromNode) and consumed by sendTemplate, one constructor
per template_type value. -/
inductive MessengerTemplate where
  | text (body : JStr)
  | button (body : JStr) (buttons : List MButton)
  | media (atype : String) (url : String)
  | generic (elements : List MElement)
deriving DecidableEq, Repr

/-- maxTextLength of MessengerClient. -/
def maxTextLength : Nat := 2000

/-- maxButtonTitleLength of MessengerClient. -/
def maxButtonTitleLength : Nat := 20

/-- MessengerClient.validateText: truncate to maxTextLength characters
(substring from 0; the empty-input guard returns the empty string, which
take already yields). -/
def validateText (t : JStr) : JStr := t.take maxTextLength

/-- MessengerClient.validateButtonTitle: truncate to maxButtonTitleLength. -/
def validateButtonTitle (t : JStr) : JStr := t.take maxButtonTitleLength

/-- MessengerClient.validateButtons: keep the first three buttons and
truncate each title. -/
def validateButtons (bs : List MButton) : List MButton :=
  (bs.take 3).map fun b => { b with title := validateButtonTitle b.title }

/-- MessengerClient.validateElements: keep the first ten elements,
truncate titles and subtitles as text, validate nested buttons. The
subtitle is guarded by a truthiness test in the source, so an absent or
empty subtitle becomes undefined. -/
def validateElements (es : List MElement) : List MElement :=
  (es.take 10).map fun e =>
    { e with
      title := validateText e.title
      subtitle := (truthyJ e.subtitle).map validateText
      buttons := e.buttons.map validateButtons }

/-- The message payload handed to the Send API by sendTemplate, one
constructor per branch of its switch. -/
inductive OutPayload where
  | genericPayload (elements : List MElement)
  | buttonPayload (body : JStr) (buttons : List MButton)
  | mediaAttachment (atype : String) (url : String)
  | textMsg (body : JStr)
deriving DecidableEq, Repr

/-- The fallback text sent when sendTemplate fails to prepare a payload. -/
def errorPreparingText : JStr :=
  "Sorry, I encountered an error preparing the message. Please try again.".toList

/-- The switch of MessengerClient.sendTemplate: build the outbound
payload, or raise when a required field is missing (button and text
templates need nonempty text, a media template needs a url). -/
def prepareTemplate : MessengerTemplate → Except String OutPayload
  | .generic els => .ok (.genericPayload (validateElements els))
  | .button body btns =>
    if body = [] then .error "Button template requires text"
    else .ok (.buttonPayload (validateText body) (validateButtons btns))
  | .media atype url =>
    if url = "" then .error "Media template requires a URL"
    else .ok (.mediaAttachment atype url)
  | .text body =>
    if body = [] then .error "Text template requires text"
    else .ok (.textMsg (validateText body))

/-- MessengerClient.sendTemplate: the payload that actually goes out for
a template; the catch block downgrades any preparation error to a plain
text message. -/
def sendTemplatePayload (t : MessengerTemplate) : OutPayload :=
  match prepareTemplate t with
  | .ok p => p
  | .error _ => .textMsg errorPreparingText

/-! ## Chatbot data model (src/lib/messenger.ts, ChatbotNode and friends) -/

/-- A button of a flow item: identifier and display text. -/
structure FlowButton where
  id : String
  text : JStr
deriving DecidableEq, Repr

/-- An item of a flow node. Fields that flow.json may omit are Option. -/
structure Item where
  id : String
  type : String
  text : Option JStr
  video_url : Option String
  number : Option JStr
  link : Option String
  buttons : Option (List FlowButton)
deriving DecidableEq, Repr

/-- A node of the conversation flow. The items field itself may be
absent in the untyped flow data, which matters because handleMessage
indexes it without an optional guard. -/
structure ChatbotNode where
  id : String
  type : String
  label : String
  items : Option (List Item)
deriving DecidableEq, Repr

/-- A directed edge of the flow graph. -/
structure Edge where
  source : String
  target : String
deriving DecidableEq, Repr

/-- The loaded flow: the messages list and the elements.edges list. -/
structure Flow where
  messages : List ChatbotNode
  edges : List Edge
deriving DecidableEq, Repr

/-- Chatbot.validateFlow: accept exactly when both the messages field
and the elements.edges field are present and array-shaped (absence or a
non-array value is modelled as none). -/
def validateFlow (messages : Option (List ChatbotNode))
    (edges : Option (List Edge)) : Bool :=
  messages.isSome && edges.isSome

/-- Chatbot.findNodeById: first node of the messages list with the
given id. -/
def findNodeById (flow : Flow) (id : String) : Option ChatbotNode :=
  flow.messages.find? fun msg => msg.id == id

/-- Chatbot.findNextNodes: targets of the edges whose source is the
given id, in edge-collection order. -/
def findNextNodes (flow : Flow) (currentNodeId : String) : List String :=
  (flow.edges.filter fun e => e.source == currentNodeId).map fun e => e.target

/-- Fallback text for a node with no first item. -/
def notConfiguredText : JStr :=
  "Sorry, this message is not properly configured.".toList

/-- Fallback text for an unrecognized item shape. -/
def dontUnderstandText : JStr :=
  "Sorry, I don\x27t understand that message type.".toList

/-- Chatbot.createTemplateFromNode. The try block of the source cannot
raise on well-typed data, so the function is total; the guard on
node.items?.[0] covers a missing items field, an empty items list and
the policy-table fallbacks. -/
def createTemplateFromNode (node : ChatbotNode) : MessengerTemplate :=
  match node.items.bind List.head? with
  | none => .text notConfiguredText
  | some item =>
    if item.type = "messengerTextVue" then
      match item.buttons with
      | some btns =>
        if 0 < btns.length then
          .button (item.text.getD [])
            (btns.map fun b => ⟨"postback", b.text, some b.id, none⟩)
        else .text (item.text.getD [])
      | none => .text (item.text.getD [])
    else if item.type = "messengerVideoVue" then
      match truthyS item.video_url with
      | some u => .media "video" u
      | none =>
        match truthyS item.link with
        | some l =>
          .generic [⟨(truthyJ item.number).getD "Video".toList,
                     "Click to watch".toList,
                     some ("web_url", l),
                     some [⟨"web_url", "Watch Video".toList, none, some l⟩]⟩]
        | none => .text dontUnderstandText
    else .text dontUnderstandText

/-! ## Sessions, rate limiting, cleanup -/

/-- A user session. The free-form context map of the source is unused by
all core logic and is omitted from the embedding. -/
structure UserSession where
  currentNode : String
  lastInteraction : Int
  messageCount : Nat
deriving DecidableEq, Repr

/-- The in-memory session registry, keyed by sender id; lookups take the
first binding, matching Map semantics on duplicate-free lists. -/
abbrev SessionMap := List (String × UserSession)

/-- Map.set: replace the binding for the key, or append a fresh one. -/
def setSession : SessionMap → String → UserSession → SessionMap
  | [], k, v => [(k, v)]
  | (k', v') :: rest, k, v =>
    if k' = k then (k, v) :: rest else (k', v') :: setSession rest k v

/-- sessionTimeout of Chatbot: 30 minutes in milliseconds. -/
def sessionTimeout : Int := 30 * 60 * 1000

/-- maxMessagesPerMinute of Chatbot. -/
def maxMessagesPerMinute : Nat := 20

/-- Chatbot.getUserSession: return the existing session, or create one
whose current node is the first flow node. Creation dereferences
flow.messages[0].id, which raises when the messages list is empty; the
raised exception is the none result. -/
def getUserSession (flow : Flow) (sessions : SessionMap) (senderId : String)
    (now : Int) : Option (UserSession × SessionMap) :=
  match List.lookup senderId sessions with
  | some s => some (s, sessions)
  | none =>
    match flow.messages.head? with
    | none => none
    | some n =>
      let s : UserSession := ⟨n.id, now, 0⟩
      some (s, setSession sessions senderId s)

/-- Chatbot.updateSessionActivity: stamp the session and bump the count. -/
def touchSession (now : Int) (s : UserSession) : UserSession :=
  { s with lastInteraction := now, messageCount := s.messageCount + 1 }

/-- One pass of the interval body installed by
Chatbot.startSessionCleanup: delete every session whose last-interaction
age strictly exceeds sessionTimeout. -/
def cleanupSweep (now : Int) (sessions : SessionMap) : SessionMap :=
  sessions.filter fun kv => !decide (sessionTimeout < now - kv.2.lastInteraction)

/-- Chatbot.checkRateLimit: reset the count when the last interaction is
strictly older than one minute, then allow iff the count is strictly
below maxMessagesPerMinute. The possibly-reset session is returned
because the source mutates it in place. -/
def checkRateLimit (now : Int) (s : UserSession) : Bool × UserSession :=
  let s1 := if s.lastInteraction < now - 60 * 1000 then { s with messageCount := 0 } else s
  (decide (s1.messageCount < maxMessagesPerMinute), s1)

/-! ## Message handling -/

/-- An inbound messaging event: an optional postback payload and an
optional message text. -/
structure InboundMessage where
  postback : Option String
  text : Option JStr
deriving DecidableEq, Repr

/-- The notice sent when the rate limiter rejects an event. -/
def rateLimitTemplate : MessengerTemplate :=
  .text "You\x27re sending messages too quickly. Please wait a moment before trying again.".toList

/-- Outbound activity of handleMessage, in await order. -/
inductive Effect where
  | markSeen
  | typingOn
  | typingOff
  | sendTemplate (t : MessengerTemplate)
deriving DecidableEq, Repr

/-- The button-match half of the text path of handleMessage: the
expression currentNode?.items[0]?.buttons followed by the find over
button labels and the first-edge lookup. The outer none is the raised
TypeError when the current node exists but its items field is absent
(the source indexes items without an optional guard there); the inner
option is the nextNodeId value after the match block, none when no
button matched or the matched button has no outgoing edge. -/
def textMatchTarget (flow : Flow) (currentNodeId : String) (t : JStr) :
    Option (Option String) :=
  match findNodeById flow currentNodeId with
  | none => some none
  | some cur =>
    match cur.items with
    | none => none
    | some its =>
      match its.head? with
      | none => some none
      | some item =>
        match item.buttons with
        | none => some none
        | some btns =>
          match btns.find? (fun b => lowerJ b.text == lowerJ t) with
          | none => some none
          | some b => some (findNextNodes flow b.id).head?

/-- The nextNodeId resolution of handleMessage. A present postback
object takes the first edge target out of its payload and nothing else;
only the text branch carries the restart fallback to
flow.messages[0].id, which raises (outer none) when the messages list is
empty. An empty text string is falsy and skips the text branch, and the
restart test is the falsiness of nextNodeId, so an empty-string target
out of the button match also restarts. -/
def resolveNextNodeId (flow : Flow) (currentNodeId : String)
    (m : InboundMessage) : Option (Option String) :=
  match m.postback with
  | some payload => some (findNextNodes flow payload).head?
  | none =>
    match m.text with
    | none => some none
    | some t =>
      if t = [] then some none
      else
        match textMatchTarget flow currentNodeId t with
        | none => none
        | some r =>
          match truthyS r with
          | some nid => some (some nid)
          | none =>
            match flow.messages.head? with
            | some n => some (some n.id)
            | none => none

/-- Chatbot.handleMessage: session lookup, rate check (which may
short-circuit with only the rate-limit notice), mark-seen and typing-on,
target resolution, conditional dispatch with node change, session touch,
typing-off. The dispatch guard is the truthiness of nextNodeId, so a
resolved empty-string target never dispatches. A none result is a raised
exception (which the catch of the source answers with an error notice
before re-raising). -/
def handleMessage (flow : Flow) (sessions : SessionMap) (senderId : String)
    (m : InboundMessage) (now : Int) : Option (SessionMap × List Effect) :=
  match getUserSession flow sessions senderId now with
  | none => none
  | some (s, sessions1) =>
    if (checkRateLimit now s).1 = false then
      some (setSession sessions1 senderId (checkRateLimit now s).2,
            [Effect.sendTemplate rateLimitTemplate])
    else
      match resolveNextNodeId flow (checkRateLimit now s).2.currentNode m with
      | none => none
      | some nid? =>
        match truthyS nid? with
        | none =>
          some (setSession sessions1 senderId (touchSession now (checkRateLimit now s).2),
                [Effect.markSeen, Effect.typingOn, Effect.typingOff])
        | some nid =>
          match findNodeById flow nid with
          | none =>
            some (setSession sessions1 senderId (touchSession now (checkRateLimit now s).2),
                  [Effect.markSeen, Effect.typingOn, Effect.typingOff])
          | some node =>
            some (setSession sessions1 senderId
                    (touchSession now { (checkRateLimit now s).2 with currentNode := nid }),
                  [Effect.markSeen, Effect.typingOn,
                   Effect.sendTemplate (createTemplateFromNode node),
                   Effect.typingOff])

/-! ## Concrete flow data for witnesses and counterexamples -/

/-- The button of the example node a. -/
def btnNext : FlowButton := ⟨"b1", "Next".toList⟩

/-- Example item: text with one button. -/
def itemA : Item := ⟨"i1", "messengerTextVue", some "Hi".toList, none, none, none, some [btnNext]⟩

/-- Example node a, the first declared node of the example flows. -/
def nodeA : ChatbotNode := ⟨"a", "message", "A", some [itemA]⟩

/-- Example item: plain text, no buttons. -/
def itemB : Item := ⟨"i2", "messengerTextVue", some "Bye".toList, none, none, none, none⟩

/-- Example node b. -/
def nodeB : ChatbotNode := ⟨"b", "message", "B", some [itemB]⟩

/-- Example flow: nodes a and b, one edge from button b1 to node b. -/
def flow1 : Flow := ⟨[nodeA, nodeB], [⟨"b1", "b"⟩]⟩

/-- Example flow with a dangling edge: button b1 points at an id that
names no node. -/
def flow2 : Flow := ⟨[nodeA, nodeB], [⟨"b1", "zzz"⟩]⟩

/-- A node whose id is the empty string. -/
def nodeE : ChatbotNode := ⟨"", "message", "E", some [itemB]⟩

/-- Example flow whose edge from button b1 targets the empty-string id,
which does name an existing node (nodeE). -/
def flow3 : Flow := ⟨[nodeA, nodeE], [⟨"b1", ""⟩]⟩

/-- A 2500-character body text. -/
def text2500 : JStr := List.replicate 2500 'a'

/-- A 30-character button title. -/
def title30 : JStr := List.replicate 30 't'

/-- A button with a 30-character title. -/
def btn30 : FlowButton := ⟨"b9", title30⟩

/-- A text item with a 2500-character body and one button with a
30-character title. -/
def item2500 : Item := ⟨"i9", "messengerTextVue", some text2500, none, none, none, some [btn30]⟩

/-- A node whose first item is item2500. -/
def cNode2500 : ChatbotNode := ⟨"n9", "message", "N9", some [item2500]⟩

/-! ## Helper lemmas -/

theorem text2500_length : text2500.length = 2500 :=
  List.length_replicate 2500 'a'

theorem title30_length : title30.length = 30 :=
  List.length_replicate 30 't'

theorem text2500_ne_nil : text2500 ≠ [] := by
  intro h
  have hlen := text2500_length
  rw [h] at hlen
  simp only [List.length_nil] at hlen
  omega

theorem truthyS_some_of_ne (s : String) (h : s ≠ "") : truthyS (some s) = some s := by
  unfold truthyS
  split
  next heq =>
    injection heq with heq2
    exact absurd heq2 h
  next => rfl

theorem checkRateLimit_snd_currentNode (now : Int) (s : UserSession) :
    ((checkRateLimit now s).2).currentNode = s.currentNode := by
  unfold checkRateLimit
  dsimp only
  split <;> rfl

theorem checkRateLimit_snd_lastInteraction (now : Int) (s : UserSession) :
    ((checkRateLimit now s).2).lastInteraction = s.lastInteraction := by
  unfold checkRateLimit
  dsimp only
  split <;> rfl

theorem checkRateLimit_of_not_allowed (now : Int) (s : UserSession)
    (h : (checkRateLimit now s).1 = false) : (checkRateLimit now s).2 = s := by
  by_cases hr : s.lastInteraction < now - 60 * 1000
  · exfalso
    unfold checkRateLimit at h
    dsimp only at h
    rw [if_pos hr] at h
    simp [maxMessagesPerMinute] at h
  · unfold checkRateLimit
    dsimp only
    rw [if_neg hr]

theorem setSession_lookup_eq (sessions : SessionMap) (sid : String) (s : UserSession)
    (h : List.lookup sid sessions = some s) : setSession sessions sid s = sessions := by
  induction sessions with
  | nil => simp [List.lookup] at h
  | cons kv rest ih =>
    obtain ⟨k, v⟩ := kv
    by_cases hk : k = sid
    · subst hk
      simp [List.lookup] at h
      simp [setSession, h]
    · have hk' : (sid == k) = false := by simp [hk]; exact fun hh => hk hh.symm
      rw [List.lookup] at h
      rw [hk'] at h
      simp [setSession, hk, ih h]

theorem getUserSession_of_lookup (flow : Flow) (sessions : SessionMap)
    (sid : String) (now : Int) (s : UserSession)
    (h : List.lookup sid sessions = some s) :
    getUserSession flow sessions sid now = some (s, sessions) := by
  unfold getUserSession
  rw [h]

/-! ## Claim theorems -/

/-- C3: allow(session) resets messageCount to 0 exactly when the
last-interaction timestamp is more than 60 seconds before now, and
returns true iff the (post-reset, pre-increment) count is strictly below
20 — equivalently, true iff the window elapsed or the prior count is
below 20; the current node and timestamp are untouched. -/
theorem checkRateLimit_spec (now : Int) (s : UserSession) :
    ((checkRateLimit now s).1 = true ↔
      (60 * 1000 < now - s.lastInteraction ∨ s.messageCount < maxMessagesPerMinute)) ∧
    (checkRateLimit now s).2.messageCount =
      (if 60 * 1000 < now - s.lastInteraction then 0 else s.messageCount) ∧
    (checkRateLimit now s).2.currentNode = s.currentNode ∧
    (checkRateLimit now s).2.lastInteraction = s.lastInteraction := by
  unfold checkRateLimit
  dsimp only
  split
  next hr =>
    refine ⟨?_, ?_, rfl, rfl⟩
    · simp only [maxMessagesPerMinute, decide_eq_true_eq]
      omega
    · rw [if_pos (by omega)]
  next hr =>
    refine ⟨?_, ?_, rfl, rfl⟩
    · simp only [maxMessagesPerMinute, decide_eq_true_eq]
      omega
    · rw [if_neg (by omega)]

/-- C7: one sweep pass keeps a session entry iff its last-interaction
age at sweep time is at most sessionTimeout (30 minutes); entries
strictly older are removed, entries within the window survive. -/
theorem cleanupSweep_mem_iff (now : Int) (sessions : SessionMap)
    (sid : String) (s : UserSession) :
    (sid, s) ∈ cleanupSweep now sessions ↔
      (sid, s) ∈ sessions ∧ now - s.lastInteraction ≤ sessionTimeout := by
  unfold cleanupSweep
  simp [List.mem_filter, not_lt]

/-- C8: createTemplateFromNode is a total function of the node: a node
with a missing or empty item list yields the not-configured text
template, a first item of unrecognized type yields the
dont-understand text template, and so does a video item with neither a
direct url nor a link; no input raises. -/
theorem createTemplateFromNode_fallbacks (node : ChatbotNode) :
    (node.items.bind List.head? = none →
      createTemplateFromNode node = .text notConfiguredText) ∧
    (∀ item, node.items.bind List.head? = some item →
      item.type ≠ "messengerTextVue" → item.type ≠ "messengerVideoVue" →
      createTemplateFromNode node = .text dontUnderstandText) ∧
    (∀ item, node.items.bind List.head? = some item →
      item.type = "messengerVideoVue" →
      truthyS item.video_url = none → truthyS item.link = none →
      createTemplateFromNode node = .text dontUnderstandText) := by
  refine ⟨?_, ?_, ?_⟩
  · intro h
    unfold createTemplateFromNode
    rw [h]
  · intro item h h1 h2
    unfold createTemplateFromNode
    rw [h]
    simp [h1, h2]
  · intro item h h2 hv hl
    unfold createTemplateFromNode
    rw [h]
    simp [h2, hv, hl]

/-- Witness for C8 at concrete nodes: a node with an absent item list, a
node with an empty item list, and a node whose first item has an
unknown type tag. -/
theorem createTemplateFromNode_fallbacks_witness :
    createTemplateFromNode ⟨"e", "message", "E", none⟩ = .text notConfiguredText ∧
    createTemplateFromNode ⟨"e2", "message", "E2", some []⟩ = .text notConfiguredText ∧
    createTemplateFromNode
        ⟨"e3", "message", "E3", some [⟨"i3", "mysteryVue", none, none, none, none, none⟩]⟩ =
      .text dontUnderstandText :=
  ⟨(createTemplateFromNode_fallbacks _).1 rfl,
   (createTemplateFromNode_fallbacks _).1 rfl,
   (createTemplateFromNode_fallbacks _).2.1 _ rfl (by decide) (by decide)⟩

/-- C5: when the rate limiter rejects an event, handleMessage
short-circuits right after session lookup: the session registry is left
exactly as it was (no node change, no count increment, no timestamp
update) and the only outbound activity is the rate-limit notice — no
mark-seen, no typing indicators, no node template. -/
theorem handleMessage_rate_limited (flow : Flow) (sessions : SessionMap)
    (sid : String) (s : UserSession) (m : InboundMessage) (now : Int)
    (hl : List.lookup sid sessions = some s)
    (hrc : (checkRateLimit now s).1 = false) :
    handleMessage flow sessions sid m now =
      some (sessions, [Effect.sendTemplate rateLimitTemplate]) := by
  unfold handleMessage
  rw [getUserSession_of_lookup flow sessions sid now s hl]
  dsimp only
  rw [if_pos hrc, checkRateLimit_of_not_allowed now s hrc,
      setSession_lookup_eq sessions sid s hl]

/-- Witness for C5: a session with count 20 and fresh timestamp is
rejected, the registry is unchanged and only the notice goes out. -/
theorem handleMessage_rate_limited_witness :
    List.lookup "u" [("u", (⟨"a", 1000, 20⟩ : UserSession))] = some ⟨"a", 1000, 20⟩ ∧
    (checkRateLimit 1000 ⟨"a", 1000, 20⟩).1 = false ∧
    handleMessage flow1 [("u", ⟨"a", 1000, 20⟩)] "u" ⟨none, some "next".toList⟩ 1000 =
      some ([("u", ⟨"a", 1000, 20⟩)], [Effect.sendTemplate rateLimitTemplate]) :=
  ⟨by decide, by decide,
   handleMessage_rate_limited flow1 [("u", ⟨"a", 1000, 20⟩)] "u" ⟨"a", 1000, 20⟩
     ⟨none, some "next".toList⟩ 1000 (by decide) (by decide)⟩

/-- C10: an event that passes the rate check but carries neither a
postback nor a (nonempty) message text dispatches no node template and
leaves the current node unchanged, yet mark-seen, typing-on and
typing-off are all sent and the session is touched: the timestamp
becomes now and the (post-reset) message count grows by one. -/
theorem handleMessage_no_content_touch (flow : Flow) (sessions : SessionMap)
    (sid : String) (s : UserSession) (m : InboundMessage) (now : Int)
    (hl : List.lookup sid sessions = some s)
    (hrc : (checkRateLimit now s).1 = true)
    (hp : m.postback = none)
    (ht : m.text = none ∨ m.text = some []) :
    handleMessage flow sessions sid m now =
      some (setSession sessions sid
              ⟨s.currentNode, now, (checkRateLimit now s).2.messageCount + 1⟩,
            [Effect.markSeen, Effect.typingOn, Effect.typingOff]) := by
  have hres : resolveNextNodeId flow (checkRateLimit now s).2.currentNode m = some none := by
    unfold resolveNextNodeId
    rw [hp]
    rcases ht with h | h
    · rw [h]
    · rw [h]
      simp
  have htouch : touchSession now (checkRateLimit now s).2 =
      ⟨s.currentNode, now, (checkRateLimit now s).2.messageCount + 1⟩ := by
    unfold touchSession
    rw [← checkRateLimit_snd_currentNode now s]
  unfold handleMessage
  rw [getUserSession_of_lookup flow sessions sid now s hl]
  dsimp only
  rw [if_neg (by simp [hrc]), hres]
  dsimp only
  rw [htouch, show truthyS none = none from rfl]

/-- Witness for C10: an attachment-only event (no postback, no text)
leaves the node at a, sends the three control signals, and touches the
session from count 3 to count 4. -/
theorem handleMessage_no_content_touch_witness :
    List.lookup "u" [("u", (⟨"a", 900, 3⟩ : UserSession))] = some ⟨"a", 900, 3⟩ ∧
    (checkRateLimit 1000 ⟨"a", 900, 3⟩).1 = true ∧
    handleMessage flow1 [("u", ⟨"a", 900, 3⟩)] "u" ⟨none, none⟩ 1000 =
      some ([("u", ⟨"a", 1000, 4⟩)],
            [Effect.markSeen, Effect.typingOn, Effect.typingOff]) :=
  ⟨by decide, by decide,
   handleMessage_no_content_touch flow1 [("u", ⟨"a", 900, 3⟩)] "u" ⟨"a", 900, 3⟩
     ⟨none, none⟩ 1000 (by decide) (by decide) rfl (Or.inl rfl)⟩

/-- C6: when the resolved target id names no existing node, the event is
a silent no-op: nothing is dispatched, the current node stays unchanged,
the session is still touched and typing is still turned off at the end
of the pipeline. -/
theorem handleMessage_unresolved_target_noop (flow : Flow) (sessions : SessionMap)
    (sid : String) (s : UserSession) (m : InboundMessage) (now : Int) (nid : String)
    (hl : List.lookup sid sessions = some s)
    (hrc : (checkRateLimit now s).1 = true)
    (hres : resolveNextNodeId flow s.currentNode m = some (some nid))
    (hfind : findNodeById flow nid = none) :
    handleMessage flow sessions sid m now =
      some (setSession sessions sid
              ⟨s.currentNode, now, (checkRateLimit now s).2.messageCount + 1⟩,
            [Effect.markSeen, Effect.typingOn, Effect.typingOff]) := by
  have htouch : touchSession now (checkRateLimit now s).2 =
      ⟨s.currentNode, now, (checkRateLimit now s).2.messageCount + 1⟩ := by
    unfold touchSession
    rw [← checkRateLimit_snd_currentNode now s]
  unfold handleMessage
  rw [getUserSession_of_lookup flow sessions sid now s hl]
  dsimp only
  rw [if_neg (by simp [hrc]), checkRateLimit_snd_currentNode now s, hres]
  dsimp only
  by_cases hid : nid = ""
  · subst hid
    rw [htouch, show truthyS (some "") = none from rfl]
  · rw [truthyS_some_of_ne nid hid]
    dsimp only
    rw [hfind]
    dsimp only
    rw [htouch]

/-- Witness for C6: a postback to button b1 of the dangling flow
resolves target zzz, which names no node: no dispatch, node stays a,
typing-off still sent, session touched. -/
theorem handleMessage_unresolved_target_noop_witness :
    List.lookup "u" [("u", (⟨"a", 500, 2⟩ : UserSession))] = some ⟨"a", 500, 2⟩ ∧
    (checkRateLimit 1000 ⟨"a", 500, 2⟩).1 = true ∧
    resolveNextNodeId flow2 "a" ⟨some "b1", none⟩ = some (some "zzz") ∧
    findNodeById flow2 "zzz" = none ∧
    handleMessage flow2 [("u", ⟨"a", 500, 2⟩)] "u" ⟨some "b1", none⟩ 1000 =
      some ([("u", ⟨"a", 1000, 3⟩)],
            [Effect.markSeen, Effect.typingOn, Effect.typingOff]) :=
  ⟨by decide, by decide, by decide, by decide,
   handleMessage_unresolved_target_noop flow2 [("u", ⟨"a", 500, 2⟩)] "u" ⟨"a", 500, 2⟩
     ⟨some "b1", none⟩ 1000 "zzz" (by decide) (by decide) (by decide) (by decide)⟩

/-- C2 counterexample: when the matched button's first edge target is
the empty string, the source treats it as no target (the restart test is
falsiness of nextNodeId) and restarts to the first declared node, even
though the empty-string id names an existing node. Concretely in flow3:
the text next matches button Next, the first edge target out of b1 is
the empty string, nodeE has exactly that id, yet the engine moves to
node a (the first declared node) and dispatches the template of a, not
of nodeE. -/
theorem empty_edge_target_restarts_cex :
    findNextNodes flow3 "b1" = [""] ∧
    findNodeById flow3 "" = some nodeE ∧
    handleMessage flow3 [("u", ⟨"a", 900, 0⟩)] "u" ⟨none, some "next".toList⟩ 1000 =
      some ([("u", ⟨"a", 1000, 1⟩)],
            [Effect.markSeen, Effect.typingOn,
             Effect.sendTemplate (createTemplateFromNode nodeA), Effect.typingOff]) ∧
    ("a" : String) ≠ "" := by
  decide

/-- C2 amended: a text event handled while the current node's first
item carries buttons matches the text case-insensitively and exactly
against the labels, the first matching button (find over the item's
button list) wins, the first edge target out of that button's id is
taken, and when that target is nonempty and names an existing node the
session moves there and the node's template is dispatched between
typing-on and typing-off; an empty-string target is falsy and triggers
the restart fallback instead. -/
theorem text_button_match_transition (flow : Flow) (sessions : SessionMap)
    (sid : String) (s : UserSession) (now : Int) (t : JStr)
    (cur : ChatbotNode) (item : Item) (its : List Item) (btns : List FlowButton)
    (b : FlowButton) (tgt : String) (rest : List String) (node : ChatbotNode)
    (hl : List.lookup sid sessions = some s)
    (hrc : (checkRateLimit now s).1 = true)
    (htne : t ≠ [])
    (hcur : findNodeById flow s.currentNode = some cur)
    (hitems : cur.items = some (item :: its))
    (hbtns : item.buttons = some btns)
    (hfindb : btns.find? (fun bb => lowerJ bb.text == lowerJ t) = some b)
    (hedges : findNextNodes flow b.id = tgt :: rest)
    (htgt : tgt ≠ "")
    (hnode : findNodeById flow tgt = some node) :
    handleMessage flow sessions sid ⟨none, some t⟩ now =
      some (setSession sessions sid ⟨tgt, now, (checkRateLimit now s).2.messageCount + 1⟩,
            [Effect.markSeen, Effect.typingOn,
             Effect.sendTemplate (createTemplateFromNode node), Effect.typingOff]) := by
  have hmatch : textMatchTarget flow s.currentNode t = some (some tgt) := by
    unfold textMatchTarget
    rw [hcur]
    dsimp only
    rw [hitems]
    dsimp only
    simp only [List.head?_cons]
    rw [hbtns]
    dsimp only
    rw [hfindb]
    dsimp only
    rw [hedges]
    simp only [List.head?_cons]
  have hres : resolveNextNodeId flow (checkRateLimit now s).2.currentNode ⟨none, some t⟩ =
      some (some tgt) := by
    unfold resolveNextNodeId
    dsimp only
    rw [if_neg htne, checkRateLimit_snd_currentNode now s, hmatch]
    dsimp only
    rw [truthyS_some_of_ne tgt htgt]
  unfold handleMessage
  rw [getUserSession_of_lookup flow sessions sid now s hl]
  dsimp only
  rw [if_neg (by simp [hrc]), hres]
  dsimp only
  rw [truthyS_some_of_ne tgt htgt]
  dsimp only
  rw [hnode]
  dsimp only [touchSession]

/-- Witness for C2: at node a, the lowercase text next matches the
button labelled Next, edge b1 to b fires, the session moves to b and
the Bye template goes out. -/
theorem text_button_match_transition_witness :
    List.lookup "u" [("u", (⟨"a", 1000, 0⟩ : UserSession))] = some ⟨"a", 1000, 0⟩ ∧
    (checkRateLimit 1000 ⟨"a", 1000, 0⟩).1 = true ∧
    findNodeById flow1 "a" = some nodeA ∧
    itemA.buttons = some [btnNext] ∧
    [btnNext].find? (fun bb => lowerJ bb.text == lowerJ "next".toList) = some btnNext ∧
    findNextNodes flow1 "b1" = ["b"] ∧
    findNodeById flow1 "b" = some nodeB ∧
    handleMessage flow1 [("u", ⟨"a", 1000, 0⟩)] "u" ⟨none, some "next".toList⟩ 1000 =
      some ([("u", ⟨"b", 1000, 1⟩)],
            [Effect.markSeen, Effect.typingOn,
             Effect.sendTemplate (MessengerTemplate.text "Bye".toList), Effect.typingOff]) :=
  ⟨by decide, by decide, by decide, by decide, by decide, by decide, by decide,
   text_button_match_transition flow1 [("u", ⟨"a", 1000, 0⟩)] "u" ⟨"a", 1000, 0⟩ 1000
     "next".toList nodeA itemA [] [btnNext] btnNext "b" [] nodeB
     (by decide) (by decide) (by decide) (by decide) (by decide) (by decide) (by decide)
     (by decide) (by decide) (by decide)⟩

/-- C1 counterexample: the restart fallback lives inside the text
branch only, so a postback whose payload has no outgoing edges does NOT
restart to the first declared node. Concretely: the first declared node
of flow1 is a, the payload px has no outgoing edges, yet a postback px
handled at node b dispatches nothing and leaves the current node at b
(only the control signals and the session touch happen). -/
theorem postback_no_edges_no_restart_cex :
    findNextNodes flow1 "px" = [] ∧
    (flow1.messages.head?.map ChatbotNode.id) = some "a" ∧
    handleMessage flow1 [("u", ⟨"b", 900, 0⟩)] "u" ⟨some "px", none⟩ 1000 =
      some ([("u", ⟨"b", 1000, 1⟩)],
            [Effect.markSeen, Effect.typingOn, Effect.typingOff]) ∧
    ("b" : String) ≠ "a" := by
  decide

/-- C1 amended: for an event that passes the rate check, the
restart-to-first-node fallback applies only on the text path: a
(nonempty) text event whose button match resolves no truthy target (no
target, or the empty-string target) restarts to the first declared node
and — provided that node's id is itself nonempty, since the dispatch
guard is also a truthiness test — dispatches its template, while a
postback event whose payload has no outgoing edges resolves no target
at all and is a silent no-op — no dispatch, current node unchanged,
only the control signals and the session touch. -/
theorem restart_only_on_text_path (flow : Flow) (sessions : SessionMap)
    (sid : String) (s : UserSession) (m : InboundMessage) (now : Int)
    (hl : List.lookup sid sessions = some s)
    (hrc : (checkRateLimit now s).1 = true) :
    (∀ p, m.postback = some p → findNextNodes flow p = [] →
      handleMessage flow sessions sid m now =
        some (setSession sessions sid
                ⟨s.currentNode, now, (checkRateLimit now s).2.messageCount + 1⟩,
              [Effect.markSeen, Effect.typingOn, Effect.typingOff])) ∧
    (∀ t r n0 ms, m.postback = none → m.text = some t → t ≠ [] →
      textMatchTarget flow s.currentNode t = some r →
      truthyS r = none →
      flow.messages = n0 :: ms →
      n0.id ≠ "" →
      handleMessage flow sessions sid m now =
        some (setSession sessions sid
                ⟨n0.id, now, (checkRateLimit now s).2.messageCount + 1⟩,
              [Effect.markSeen, Effect.typingOn,
               Effect.sendTemplate (createTemplateFromNode n0), Effect.typingOff])) := by
  constructor
  · intro p hp hedges
    have hres : resolveNextNodeId flow (checkRateLimit now s).2.currentNode m = some none := by
      unfold resolveNextNodeId
      rw [hp]
      dsimp only
      rw [hedges]
      rfl
    have htouch : touchSession now (checkRateLimit now s).2 =
        ⟨s.currentNode, now, (checkRateLimit now s).2.messageCount + 1⟩ := by
      unfold touchSession
      rw [← checkRateLimit_snd_currentNode now s]
    unfold handleMessage
    rw [getUserSession_of_lookup flow sessions sid now s hl]
    dsimp only
    rw [if_neg (by simp [hrc]), hres]
    dsimp only
    rw [htouch, show truthyS none = none from rfl]
  · intro t r n0 ms hp ht htne hmatch htruthy hmsgs hid
    have hres : resolveNextNodeId flow (checkRateLimit now s).2.currentNode m =
        some (some n0.id) := by
      unfold resolveNextNodeId
      rw [hp]
      dsimp only
      rw [ht]
      dsimp only
      rw [if_neg htne, checkRateLimit_snd_currentNode now s, hmatch]
      dsimp only
      rw [htruthy]
      dsimp only
      rw [hmsgs]
      simp only [List.head?_cons]
    have hfind : findNodeById flow n0.id = some n0 := by
      unfold findNodeById
      rw [hmsgs]
      simp
    unfold handleMessage
    rw [getUserSession_of_lookup flow sessions sid now s hl]
    dsimp only
    rw [if_neg (by simp [hrc]), hres]
    dsimp only
    rw [truthyS_some_of_ne n0.id hid]
    dsimp only
    rw [hfind]
    dsimp only [touchSession]

/-- Witness for the amended C1: at node b of flow1, the postback px
(no edges) is a no-op, while the non-matching text hello restarts to
the first node a and dispatches its template. -/
theorem restart_only_on_text_path_witness :
    findNextNodes flow1 "px" = [] ∧
    textMatchTarget flow1 "b" "hello".toList = some none ∧
    handleMessage flow1 [("u", ⟨"b", 900, 0⟩)] "u" ⟨some "px", none⟩ 1000 =
      some ([("u", ⟨"b", 1000, 1⟩)],
            [Effect.markSeen, Effect.typingOn, Effect.typingOff]) ∧
    handleMessage flow1 [("u", ⟨"b", 900, 0⟩)] "u" ⟨none, some "hello".toList⟩ 1000 =
      some ([("u", ⟨"a", 1000, 1⟩)],
            [Effect.markSeen, Effect.typingOn,
             Effect.sendTemplate (createTemplateFromNode nodeA), Effect.typingOff]) :=
  ⟨by decide, by decide,
   (restart_only_on_text_path flow1 [("u", ⟨"b", 900, 0⟩)] "u" ⟨"b", 900, 0⟩
       ⟨some "px", none⟩ 1000 (by decide) (by decide)).1 "px" rfl (by decide),
   (restart_only_on_text_path flow1 [("u", ⟨"b", 900, 0⟩)] "u" ⟨"b", 900, 0⟩
       ⟨none, some "hello".toList⟩ 1000 (by decide) (by decide)).2 "hello".toList
     none nodeA [nodeB] rfl rfl (by decide) (by decide) rfl rfl (by decide)⟩

/-- C4 counterexample: the descriptor returned by createTemplateFromNode
is NOT truncated: for a first item with a 2500-character body and a
30-character button title, the returned button template still carries
all 2500 body characters and the full 30-character title. The 2000/20
limits are applied later, by the messenger client when the template is
sent. -/
theorem builder_no_truncation_cex :
    createTemplateFromNode cNode2500 =
      MessengerTemplate.button text2500 [⟨"postback", title30, some "b9", none⟩] ∧
    2000 < text2500.length ∧
    20 < title30.length := by
  refine ⟨rfl, ?_, ?_⟩
  · have h := text2500_length
    omega
  · have h := title30_length
    omega

/-- C4 amended: for a node whose first item is a text item with at
least one button, createTemplateFromNode returns a button template
carrying the item's full body text and one postback button per source
button, with payload equal to the button id; the payload actually
dispatched by the messenger client (sendTemplate) then truncates the
body to at most 2000 characters and keeps at most 3 buttons, each with
its title truncated to 20 characters — provided the body text is
nonempty (an empty body makes sendTemplate fall back to a plain error
text). -/
theorem button_template_truncation (node : ChatbotNode) (item : Item)
    (its : List Item) (btns : List FlowButton)
    (hitems : node.items = some (item :: its))
    (htype : item.type = "messengerTextVue")
    (hbtns : item.buttons = some btns)
    (hne : btns ≠ []) :
    createTemplateFromNode node =
      MessengerTemplate.button (item.text.getD [])
        (btns.map fun b => ⟨"postback", b.text, some b.id, none⟩) ∧
    (item.text.getD [] ≠ [] →
      sendTemplatePayload (createTemplateFromNode node) =
        OutPayload.buttonPayload ((item.text.getD []).take maxTextLength)
          ((btns.take 3).map fun b =>
            ⟨"postback", b.text.take maxButtonTitleLength, some b.id, none⟩)) := by
  have hbuild : createTemplateFromNode node =
      MessengerTemplate.button (item.text.getD [])
        (btns.map fun b => ⟨"postback", b.text, some b.id, none⟩) := by
    unfold createTemplateFromNode
    rw [hitems]
    dsimp only [Option.bind]
    simp only [List.head?_cons]
    rw [if_pos htype, hbtns]
    dsimp only
    rw [if_pos (List.length_pos.mpr hne)]
  refine ⟨hbuild, fun htext => ?_⟩
  rw [hbuild]
  unfold sendTemplatePayload prepareTemplate
  dsimp only
  rw [if_neg htext]
  dsimp only
  unfold validateText validateButtons validateButtonTitle
  rw [← List.map_take, List.map_map]
  rfl

/-- Witness for the amended C4: the 2500-character body is dispatched
with exactly 2000 characters and the 30-character title with exactly
20. -/
theorem button_template_truncation_witness :
    cNode2500.items = some [item2500] ∧
    item2500.type = "messengerTextVue" ∧
    item2500.buttons = some [btn30] ∧
    ([btn30] : List FlowButton) ≠ [] ∧
    item2500.text.getD [] ≠ [] ∧
    sendTemplatePayload (createTemplateFromNode cNode2500) =
      OutPayload.buttonPayload (text2500.take 2000)
        [⟨"postback", title30.take 20, some "b9", none⟩] ∧
    (text2500.take 2000).length = 2000 ∧
    (title30.take 20).length = 20 := by
  have htext : item2500.text.getD [] ≠ [] := text2500_ne_nil
  refine ⟨rfl, rfl, rfl, by decide, htext, ?_, ?_, ?_⟩
  · exact (button_template_truncation cNode2500 item2500 [] [btn30] rfl rfl rfl
      (by decide)).2 htext
  · rw [List.length_take, text2500_length]
    decide
  · rw [List.length_take, title30_length]
    decide

/-- C9: flow validation accepts an empty messages list (it checks only
presence and array shape of messages and elements.edges), but session
creation for an unknown sender dereferences messages[0].id and so
raises on an empty-messages flow; with a nonempty messages list
getUserSession is total. -/
theorem validateFlow_accepts_empty_messages (edges : List Edge)
    (sessions : SessionMap) (sid : String) (now : Int) :
    validateFlow (some []) (some edges) = true ∧
    (List.lookup sid sessions = none →
      getUserSession ⟨[], edges⟩ sessions sid now = none) ∧
    (∀ (flow : Flow), flow.messages ≠ [] →
      (getUserSession flow sessions sid now).isSome = true) := by
  refine ⟨rfl, ?_, ?_⟩
  · intro h
    unfold getUserSession
    rw [h]
    rfl
  · intro flow hne
    unfold getUserSession
    cases hl : List.lookup sid sessions with
    | some s => rfl
    | none =>
      cases hm : flow.messages with
      | nil => exact absurd hm hne
      | cons n ms => rfl

/-- Witness for C9: the empty-messages flow passes validation yet
getUserSession raises for a fresh sender; on flow1 (nonempty messages)
it succeeds. -/
theorem validateFlow_accepts_empty_messages_witness :
    validateFlow (some []) (some ([] : List Edge)) = true ∧
    getUserSession ⟨[], []⟩ [] "u" 0 = none ∧
    (getUserSession flow1 [] "u" 0).isSome = true :=
  ⟨(validateFlow_accepts_empty_messages [] [] "u" 0).1,
   (validateFlow_accepts_empty_messages [] [] "u" 0).2.1 rfl,
   (validateFlow_accepts_empty_messages [] [] "u" 0).2.2 flow1 (by decide)⟩

end Messenger
